import Mathlib

/-!
Verification of the happytest backtesting engine (Rust) against its
natural-language specification.  The data model and the operations are
shallowly embedded: prices and quantities (f64 in the source) become ℚ,
timestamps (i64) become Int, and the stateful loops become explicit
state-passing folds.  Calls to f64::sqrt and to the random number
generator, which have no exact rational counterpart, are passed in as
explicit parameters (a function ℚ → ℚ for sqrt, a rational draw for the
rng); every theorem that depends on them quantifies over such parameters
under the constraints the real values satisfy.
-/

namespace Happytest

/-- Data model of src/core/models.rs: `Trade`.  The uuid drawn by
`Trade::new` is replaced by a constant placeholder; no operation under
verification ever reads it. -/
structure Trade where
  time : Int
  symbol : String
  side : String
  price : ℚ
  quantity : ℚ
  status : String
  id : String
deriving DecidableEq

/-- `Trade::new` of src/core/models.rs: status starts as "pending". -/
def Trade.new (time : Int) (symbol side : String) (price quantity : ℚ) : Trade :=
  { time := time, symbol := symbol, side := side, price := price,
    quantity := quantity, status := "pending", id := "uuid" }

/-- src/core/models.rs: `ClosedTrade`. -/
structure ClosedTrade where
  open_side : String
  quantity : ℚ
  open_price : ℚ
  close_side : String
  close_price : ℚ
  pnl : ℚ
deriving DecidableEq

/-- src/core/models.rs: `PnLResult`. -/
structure PnLResult where
  total_pnl : ℚ
  unrealized_pnl : ℚ
  closed_trades : List ClosedTrade
  total_fees : ℚ
deriving DecidableEq

/-- src/core/models.rs: `OrderBook` (bids/asks as (price, quantity)). -/
structure OrderBook where
  bids : List (ℚ × ℚ)
  asks : List (ℚ × ℚ)
  current_time : Int
deriving DecidableEq

/-- src/core/traits.rs: `ExecutionStats` (usize counters and an f64
cumulative slippage). -/
structure ExecutionStats where
  total_trades : Nat
  filled_trades : Nat
  rejected_trades : Nat
  partial_fills : Nat
  total_slippage : ℚ
deriving DecidableEq

/-- `ExecutionStats::default()`. -/
def ExecutionStats.dflt : ExecutionStats :=
  { total_trades := 0, filled_trades := 0, rejected_trades := 0,
    partial_fills := 0, total_slippage := 0 }

/-- src/pnl/models.rs: the calculation method (named `PnlMethod` in
models.rs and `Method` at its use site in calculator.rs). -/
inductive Method where
  | Fifo
  | Position
deriving DecidableEq

/-- src/pnl/models.rs: `PositionInfo`. -/
structure PositionInfo where
  quantity : ℚ
  avg_price : ℚ
  total_cost : ℚ
  side : Option String
  trades : List Trade
deriving DecidableEq

/-- ASCII lowercasing of one character, the effect of Rust
`char::to_lowercase` on the ASCII-only side and status strings this
program uses ("Buy", "Sell", "filled", "pending", "rejected",
"unfilled"). -/
def lowerChar (c : Char) : Char :=
  if 65 ≤ c.toNat ∧ c.toNat ≤ 90 then Char.ofNat (c.toNat + 32) else c

/-- Rust `str::to_lowercase` restricted to ASCII, used by fifo.rs,
position.rs and calculator.rs for side and status comparisons. -/
def strLower (s : String) : String := String.mk (s.data.map lowerChar)

/-- Point update of a map modelled as a function (the source uses a
`HashMap` whose entries are read with a `Vec::new()` / zero default via
`entry(..).or_insert_with(..)`). -/
def mapUpdate {α : Type} (st : String → α) (k : String) (v : α) : String → α :=
  fun s => if s = k then v else st s

/-- The matching loop of `FifoPnlProcessor::process_realized`
(src/pnl/fifo.rs lines 61-102): consume open lots front-first while the
incoming quantity lasts.  Returns the closed trades created, the lots
left open, and the unmatched remainder.  When a lot is only partially
consumed the matched quantity equals the incoming remainder, so the Rust
loop's next iteration exits immediately; the recursion returns at that
point with the same state. -/
def fifoMatch (side : String) (price : ℚ) :
    ℚ → List Trade → List ClosedTrade × List Trade × ℚ
  | remaining, [] => ([], [], remaining)
  | remaining, lot :: rest =>
    if remaining > 0 then
      let matched := min remaining lot.quantity
      let pnl := if strLower side = "buy" then (lot.price - price) * matched
                 else (price - lot.price) * matched
      let ct : ClosedTrade :=
        { quantity := matched, pnl := pnl, open_side := lot.side,
          close_side := side, open_price := lot.price, close_price := price }
      if lot.quantity - matched = 0 then
        let r := fifoMatch side price (remaining - matched) rest
        (ct :: r.1, r.2.1, r.2.2)
      else
        ([ct], { lot with quantity := lot.quantity - matched } :: rest,
         remaining - matched)
    else ([], lot :: rest, remaining)

/-- The guard of fifo.rs line 52: the per-asset queue is empty, or the
incoming order has the same side as the first open trade. -/
def sameSideAsFirst (asset : List Trade) (side : String) : Prop :=
  match asset with
  | [] => True
  | t :: _ => t.side = side

instance : ∀ (asset : List Trade) (side : String), Decidable (sameSideAsFirst asset side)
  | [], _ => .isTrue trivial
  | t :: _, side =>
    if h : t.side = side then .isTrue h else .isFalse h

/-- One iteration of the order loop of `process_realized` (fifo.rs lines
29-117), acting on the per-symbol open-lot map.  The `pnl_records`
vector built alongside is dead in the source (it is not part of the
returned `PnLResult`) and is omitted. -/
def fifoStep (st : String → List Trade) (order : Trade) :
    (String → List Trade) × List ClosedTrade :=
  let asset := st order.symbol
  if sameSideAsFirst asset order.side then
    (mapUpdate st order.symbol (asset ++ [order]), [])
  else
    let m := fifoMatch order.side order.price order.quantity asset
    let lots :=
      if m.2.2 > 0 then m.2.1 ++ [{ order with quantity := m.2.2 }] else m.2.1
    (mapUpdate st order.symbol lots, m.1)

/-- The order loop of `process_realized`, returning the closed trades in
creation order. -/
def fifoRun (st : String → List Trade) : List Trade → List ClosedTrade
  | [] => []
  | o :: rest =>
    let s := fifoStep st o
    s.2 ++ fifoRun s.1 rest

/-- The order loop of `process_realized`, returning the final open-lot
map (the loop state at exit). -/
def fifoRunState (st : String → List Trade) : List Trade → (String → List Trade)
  | [] => st
  | o :: rest => fifoRunState (fifoStep st o).1 rest

/-- Sum of the pnl fields of a closed-trade list (fifo.rs line 120,
position.rs line 156). -/
def sumPnl (cts : List ClosedTrade) : ℚ := (cts.map (·.pnl)).sum

/-- `FifoPnlProcessor::process_realized` (src/pnl/fifo.rs lines 20-132).
The final `open_trades.retain` only prunes empty map entries and cannot
affect the returned `PnLResult`. -/
def FifoPnlProcessor.process_realized (trades : List Trade) : PnLResult :=
  let cts := fifoRun (fun _ => []) trades
  { total_pnl := sumPnl cts, unrealized_pnl := 0,
    closed_trades := cts, total_fees := 0 }

/-- Default value inserted by `positions.entry(..).or_insert_with(..)`
(src/pnl/position.rs lines 40-46). -/
def posDefault : PositionInfo :=
  { quantity := 0, avg_price := 0, total_cost := 0, side := none, trades := [] }

/-- One iteration of the order loop of
`PositionPnlProcessor::process_position` (src/pnl/position.rs lines
32-153), acting on the per-symbol position map.  The `pnl_records`
vector is dead in the source and omitted.  The reduce branch returns the
single closed trade it creates together with the position quantity and
the unmatched remainder after the match. -/
def posStep (st : String → Option PositionInfo) (order : Trade) :
    (String → Option PositionInfo) × List ClosedTrade :=
  let pos := (st order.symbol).getD posDefault
  if pos.quantity = 0 then
    -- New position (position.rs lines 49-55)
    let q := if strLower order.side = "buy" then order.quantity else -order.quantity
    let pos1 := { pos with
                  quantity := q
                  avg_price := order.price
                  total_cost := order.price * order.quantity
                  side := some order.side
                  trades := pos.trades ++ [order] }
    (mapUpdate st order.symbol (some pos1), [])
  else if (pos.quantity > 0 ∧ strLower order.side = "buy") ∨
          (pos.quantity < 0 ∧ strLower order.side = "sell") then
    -- Increasing position, same direction (lines 57-71)
    let pos1 :=
      if strLower order.side = "buy" then
        let newQ := pos.quantity + order.quantity
        let tc := pos.total_cost + order.price * order.quantity
        { pos with
          quantity := newQ
          total_cost := tc
          avg_price := tc / newQ
          trades := pos.trades ++ [order] }
      else
        let newQ := pos.quantity - order.quantity
        let tc := pos.total_cost + order.price * order.quantity
        { pos with
          quantity := newQ
          total_cost := tc
          avg_price := tc / abs newQ
          trades := pos.trades ++ [order] }
    (mapUpdate st order.symbol (some pos1), [])
  else
    -- Reducing or closing position, opposite direction (lines 73-152)
    let lr :=
      if pos.quantity > 0 then
        let matched := min order.quantity pos.quantity
        (({ quantity := matched, pnl := (order.price - pos.avg_price) * matched,
            open_side := "Buy", close_side := "Sell",
            open_price := pos.avg_price, close_price := order.price } : ClosedTrade),
         pos.quantity - matched, order.quantity - matched)
      else
        let matched := min order.quantity (abs pos.quantity)
        (({ quantity := matched, pnl := (pos.avg_price - order.price) * matched,
            open_side := "Sell", close_side := "Buy",
            open_price := pos.avg_price, close_price := order.price } : ClosedTrade),
         pos.quantity + matched, order.quantity - matched)
    let q1 := lr.2.1
    let rem1 := lr.2.2
    -- Cost-basis update (lines 128-134)
    let pos2 :=
      if q1 ≠ 0 then { pos with quantity := q1, total_cost := pos.avg_price * abs q1 }
      else { pos with quantity := 0, total_cost := 0, avg_price := 0, trades := [] }
    -- Position reversal (lines 137-151)
    let pos3 :=
      if rem1 > 0 then
        { pos2 with
          quantity := if strLower order.side = "buy" then rem1 else -rem1
          avg_price := order.price
          total_cost := order.price * rem1
          side := some order.side
          trades := [{ order with quantity := rem1 }] }
      else pos2
    (mapUpdate st order.symbol (some pos3), [lr.1])

/-- The order loop of `process_position`, returning the closed trades in
creation order. -/
def posRun (st : String → Option PositionInfo) : List Trade → List ClosedTrade
  | [] => []
  | o :: rest =>
    let s := posStep st o
    s.2 ++ posRun s.1 rest

/-- The order loop of `process_position`, returning the final position
map (the loop state at exit). -/
def posRunState (st : String → Option PositionInfo) :
    List Trade → (String → Option PositionInfo)
  | [] => st
  | o :: rest => posRunState (posStep st o).1 rest

/-- `PositionPnlProcessor::process_position` (src/pnl/position.rs lines
23-165). -/
def PositionPnlProcessor.process_position (trades : List Trade) : PnLResult :=
  let cts := posRun (fun _ => none) trades
  { total_pnl := sumPnl cts, unrealized_pnl := 0,
    closed_trades := cts, total_fees := 0 }

/-- The status filter of `PnlReport::calculate` (src/pnl/calculator.rs
line 48): keep trades whose lowercased status is "filled". -/
def isFilled (t : Trade) : Bool := decide (strLower t.status = "filled")

/-- `PnlReport::calculate` (src/pnl/calculator.rs lines 45-74): filter
the filled orders, return a zero-valued result when none remain,
otherwise run the processor the method selects.  The `PnLResult` shape
embedded is the one of src/core/models.rs, which carries no
remaining-shares field. -/
def PnlReport.calculate (trades : List Trade) (method : Method) : PnLResult :=
  let filled := trades.filter isFilled
  if filled = [] then
    { total_pnl := 0, unrealized_pnl := 0, closed_trades := [], total_fees := 0 }
  else
    match method with
    | .Fifo => FifoPnlProcessor.process_realized filled
    | .Position => PositionPnlProcessor.process_position filled

/-- Running sums of a pnl list, used for the cumulative-pnl series of
`PnlReport::calculate_metrics` (calculator.rs lines 905-911). -/
def partialSums : List ℚ → ℚ → List ℚ
  | [], _ => []
  | p :: rest, acc => (acc + p) :: partialSums rest (acc + p)

/-- The cumulative-pnl series of `calculate_metrics`: a leading 0
followed by the running sums of the closed-trade pnls. -/
def cumulativePnl (cts : List ClosedTrade) : List ℚ :=
  0 :: partialSums (cts.map (·.pnl)) 0

/-- The per-step return series of `calculate_metrics` (calculator.rs
lines 931-939): for each consecutive pair, the fractional change over
the previous value; when the previous value is 0 and the current is not,
a sentinel of plus or minus 1 is pushed; when both are 0 the step is
skipped. -/
def mkSharpeReturns (l : List ℚ) : List ℚ :=
  (l.zip l.tail).filterMap (fun pq =>
    if pq.1 ≠ 0 then some ((pq.2 - pq.1) / abs pq.1)
    else if pq.2 ≠ 0 then some (if pq.2 > 0 then 1 else -1)
    else none)

/-- The peak-tracking drawdown loop of `calculate_metrics` (calculator.rs
lines 914-926), carrying the running peak and the maximum percent
drawdown seen. -/
def mddLoop : List ℚ → ℚ → ℚ → ℚ
  | [], _, acc => acc
  | p :: rest, peak, acc =>
    let peak1 := if p > peak then p else peak
    let acc1 := if peak1 > 0 then max acc ((peak1 - p) / peak1 * 100) else acc
    mddLoop rest peak1 acc1

/-- `PnlReport::calculate_metrics` (src/pnl/calculator.rs lines
893-968), returning (max drawdown percent, Sharpe value).  `sqrtQ`
stands for f64::sqrt applied to the variance, and `s252` for the value
the source computes as `(252.0_f64).sqrt()`; the source divides
`mean * s252` by `std_dev * s252`.  The source sorts the filled trades
by time but reads them only for the emptiness check. -/
def calculate_metrics (sqrtQ : ℚ → ℚ) (s252 : ℚ)
    (trades : List Trade) (result : PnLResult) : ℚ × ℚ :=
  let filled := trades.filter isFilled
  if filled = [] then (0, 0)
  else
    let cumulative := cumulativePnl result.closed_trades
    let mdd := match cumulative with
      | [] => 0
      | h :: _ => mddLoop cumulative h 0
    let sharpe :=
      if cumulative.length > 2 then
        let rets := mkSharpeReturns cumulative
        if rets ≠ [] then
          let meanR := rets.sum / (rets.length : ℚ)
          let variance := (rets.map (fun r => (r - meanR) ^ 2)).sum / (rets.length : ℚ)
          let stdDev := sqrtQ variance
          if stdDev > 0 then (meanR * s252) / (stdDev * s252) else 0
        else 0
      else 0
    (mdd, sharpe)

/-- src/trading/executor.rs: `BacktestConfig`. -/
structure BacktestConfig where
  fill_rate : ℚ
  slippage_bps : ℚ
  rejection_rate : ℚ
  margin_rate : ℚ
  fix_order_volume : ℚ
  min_spread_pct : ℚ
  spread_percent : ℚ
  max_order_volume : ℚ
deriving DecidableEq

/-- `BacktestConfig::default()` (executor.rs lines 22-35). -/
def BacktestConfig.dflt : BacktestConfig :=
  { fill_rate := 19/20, slippage_bps := 1/2, rejection_rate := 1/50,
    margin_rate := 1/10, fix_order_volume := 0, min_spread_pct := 1/10,
    spread_percent := 1/10, max_order_volume := 0 }

/-- src/trading/executor.rs: `BacktestTradeEmitter`.  Its `StdRng` is
modelled by the stream of uniform draws in [0,1) the generator will
produce. -/
structure BacktestTradeEmitter where
  config : BacktestConfig
  rngDraws : List ℚ
  stats : ExecutionStats

/-- `BacktestTradeEmitter::new` (executor.rs lines 44-50).  The source
initialises the rng with `StdRng::from_entropy()`: the draw stream comes
from operating-system entropy supplied from outside; the constructor
accepts no seed and no rng argument in the source. -/
def BacktestTradeEmitter.new (config : BacktestConfig)
    (entropyDraws : List ℚ) : BacktestTradeEmitter :=
  { config := config, rngDraws := entropyDraws, stats := ExecutionStats.dflt }

/-- `<BacktestTradeEmitter as TradeEmitter>::execute_trade` (executor.rs
lines 54-93): one uniform draw per proposal; reject below the rejection
rate, else fill below the fill rate with multiplicative slippage (times
the factor for a "Buy" side, divided by it otherwise), else unfilled. -/
def BacktestTradeEmitter.execute_trade (em : BacktestTradeEmitter)
    (tr : Option Trade) : Option Trade × BacktestTradeEmitter :=
  match tr with
  | none => (none, em)
  | some trade =>
    let stats0 := { em.stats with total_trades := em.stats.total_trades + 1 }
    let r := em.rngDraws.headD 0
    let em0 := { em with rngDraws := em.rngDraws.tail, stats := stats0 }
    if r < em.config.rejection_rate then
      (some { trade with status := "rejected" },
       { em0 with stats := { stats0 with rejected_trades := stats0.rejected_trades + 1 } })
    else if r < em.config.fill_rate then
      let slippage_factor := 1 + em.config.slippage_bps / 10000
      let newPrice := if trade.side = "Buy" then trade.price * slippage_factor
                      else trade.price / slippage_factor
      let slippage := abs (newPrice - trade.price)
      (some { trade with price := newPrice, status := "filled" },
       { em0 with stats := { stats0 with
           filled_trades := stats0.filled_trades + 1
           total_slippage := stats0.total_slippage + slippage } })
    else
      (some { trade with status := "unfilled" }, em0)

/-- src/strategy/gpt_market_maker.rs: `GptMarketMakerConfig`. -/
structure GptMarketMakerConfig where
  fix_order_volume : ℚ
  vwap_window : Nat
  obi_threshold : ℚ
  max_inventory : ℚ
  use_limit_orders : Bool
  limit_order_spread_bps : ℚ
  take_profit_bps : ℚ
  stop_loss_bps : ℚ
  max_position_age_ms : Int
  inventory_reduction_threshold : ℚ
  aggressive_close_threshold : ℚ
  min_profit_bps : ℚ
  volatility_window : Nat
  max_volatility_threshold : ℚ
  volatility_cooldown_ms : Int
  momentum_window : Nat
  momentum_threshold : ℚ
  momentum_cooldown_ms : Int
deriving DecidableEq

/-- `GptMarketMakerConfig::default()` (gpt_market_maker.rs lines 31-54). -/
def GptMarketMakerConfig.dflt : GptMarketMakerConfig :=
  { fix_order_volume := 1/200, vwap_window := 100, obi_threshold := 1/10,
    max_inventory := 10, use_limit_orders := true, limit_order_spread_bps := 5,
    take_profit_bps := 20, stop_loss_bps := 50, max_position_age_ms := 300000,
    inventory_reduction_threshold := 7/10, aggressive_close_threshold := 9/10,
    min_profit_bps := 5, volatility_window := 30,
    max_volatility_threshold := 1/200000, volatility_cooldown_ms := 5000,
    momentum_window := 10, momentum_threshold := 3/2000,
    momentum_cooldown_ms := 3000 }

/-- Strategy-internal `Position` (gpt_market_maker.rs lines 56-62). -/
structure Position where
  quantity : ℚ
  entry_price : ℚ
  entry_time : Int
  side : String
deriving DecidableEq

/-- `Position::get_pnl_bps` (gpt_market_maker.rs lines 65-71). -/
def Position.get_pnl_bps (pos : Position) (current_price : ℚ) : ℚ :=
  if pos.side = "Buy" then
    ((current_price - pos.entry_price) / pos.entry_price) * 10000
  else
    ((pos.entry_price - current_price) / pos.entry_price) * 10000

/-- src/strategy/gpt_market_maker.rs: `GptMarketMaker` state.  The
`VecDeque` windows become lists with push_back as append and pop_front
as tail. -/
structure GptMarketMaker where
  symbol : String
  config : GptMarketMakerConfig
  prices : List ℚ
  volumes : List ℚ
  positions : List Position
  net_inventory : ℚ
  avg_entry_price : ℚ
  price_history : List ℚ
  last_high_volatility_time : Int
  momentum_prices : List ℚ
  last_strong_momentum_time : Int

/-- `GptMarketMaker::new` (gpt_market_maker.rs lines 93-111). -/
def GptMarketMaker.new (symbol : String) (config : GptMarketMakerConfig) :
    GptMarketMaker :=
  { symbol := symbol, config := config, prices := [], volumes := [],
    positions := [], net_inventory := 0, avg_entry_price := 0,
    price_history := [], last_high_volatility_time := 0,
    momentum_prices := [], last_strong_momentum_time := 0 }

/-- `GptMarketMaker::update_vwap` (gpt_market_maker.rs lines 113-134):
push (price times volume, volume), evict the oldest once over capacity,
and return the VWAP only when the window is full and total volume is
nonzero. -/
def GptMarketMaker.update_vwap (s : GptMarketMaker) (price volume : ℚ) :
    Option ℚ × GptMarketMaker :=
  let prices1 := s.prices ++ [price * volume]
  let volumes1 := s.volumes ++ [volume]
  let pv := if prices1.length > s.config.vwap_window
            then (prices1.tail, volumes1.tail) else (prices1, volumes1)
  let s1 := { s with prices := pv.1, volumes := pv.2 }
  if pv.2.length < s.config.vwap_window then (none, s1)
  else
    let sumP := pv.1.sum
    let sumV := pv.2.sum
    if sumV = 0 then (none, s1) else (some (sumP / sumV), s1)

/-- `GptMarketMaker::compute_obi` (gpt_market_maker.rs lines 136-149). -/
def GptMarketMaker.compute_obi (ob : OrderBook) : ℚ :=
  if ob.bids = [] ∨ ob.asks = [] then 0
  else
    let bidVol := ((ob.bids.take 5).map (·.2)).sum
    let askVol := ((ob.asks.take 5).map (·.2)).sum
    if bidVol + askVol = 0 then 0 else (bidVol - askVol) / (bidVol + askVol)

/-- `GptMarketMaker::calculate_volatility` (gpt_market_maker.rs lines
151-174): standard deviation of consecutive returns over the price
history; `sqrtQ` stands for f64::sqrt on the variance. -/
def GptMarketMaker.calculate_volatility (sqrtQ : ℚ → ℚ)
    (s : GptMarketMaker) : ℚ :=
  if s.price_history.length < 2 then 0
  else
    let prices := s.price_history
    let rets := (prices.zip prices.tail).map (fun pq => (pq.2 - pq.1) / pq.1)
    if rets = [] then 0
    else
      let meanR := rets.sum / (rets.length : ℚ)
      let variance := (rets.map (fun r => (r - meanR) ^ 2)).sum / (rets.length : ℚ)
      sqrtQ variance

/-- `GptMarketMaker::calculate_momentum` (gpt_market_maker.rs lines
176-183). -/
def GptMarketMaker.calculate_momentum (s : GptMarketMaker) : ℚ :=
  if s.momentum_prices.length < 2 then 0
  else (s.momentum_prices.getLastD 0 - s.momentum_prices.headD 0) /
        s.momentum_prices.headD 0

/-- `GptMarketMaker::check_market_conditions` (gpt_market_maker.rs lines
185-213): volatility cooldown, then momentum cooldown, then the
volatility threshold (restarting the volatility cooldown on a breach),
then the momentum threshold (restarting the momentum cooldown).  The
human-readable reason strings of the source are presentation only and
are dropped. -/
def GptMarketMaker.check_market_conditions (sqrtQ : ℚ → ℚ)
    (s : GptMarketMaker) (current_time : Int) : Bool × GptMarketMaker :=
  if current_time - s.last_high_volatility_time < s.config.volatility_cooldown_ms then
    (false, s)
  else if current_time - s.last_strong_momentum_time < s.config.momentum_cooldown_ms then
    (false, s)
  else
    let vol := GptMarketMaker.calculate_volatility sqrtQ s
    if vol > s.config.max_volatility_threshold then
      (false, { s with last_high_volatility_time := current_time })
    else
      let mom := GptMarketMaker.calculate_momentum s
      if abs mom > s.config.momentum_threshold then
        (false, { s with last_strong_momentum_time := current_time })
      else (true, s)

/-- `GptMarketMaker::calculate_average_entry_price` (gpt_market_maker.rs
lines 215-232). -/
def GptMarketMaker.calculate_average_entry_price (s : GptMarketMaker) : ℚ :=
  if s.positions = [] then 0
  else
    let tv := (s.positions.map (fun p => p.entry_price * p.quantity)).sum
    let tq := (s.positions.map (fun p => p.quantity)).sum
    if tq > 0 then tv / tq else 0

/-- `GptMarketMaker::should_close_position` (gpt_market_maker.rs lines
234-278): the five exit conditions, first match wins. -/
def GptMarketMaker.should_close_position (s : GptMarketMaker)
    (mid_price : ℚ) (current_time : Int) : Bool :=
  if s.net_inventory = 0 then false
  else
    let total_pnl_bps :=
      (s.positions.map (fun p =>
        p.get_pnl_bps mid_price * (p.quantity / abs s.net_inventory))).sum
    let oldestAge := (s.positions.map (fun p => current_time - p.entry_time)).foldl max 0
    let invR := abs s.net_inventory / s.config.max_inventory
    if total_pnl_bps ≥ s.config.take_profit_bps then true
    else if total_pnl_bps ≤ -s.config.stop_loss_bps then true
    else if oldestAge > s.config.max_position_age_ms then true
    else if invR ≥ s.config.inventory_reduction_threshold ∧
            total_pnl_bps ≥ s.config.min_profit_bps then true
    else if invR ≥ s.config.aggressive_close_threshold ∧
            total_pnl_bps ≥ -s.config.min_profit_bps then true
    else false

/-- The closing-order construction of `GptMarketMaker::propose_trade`
(gpt_market_maker.rs lines 318-344): sell at best bid (floored at a
minimum-profit limit when using limit orders) to close a long, buy at
best ask (capped symmetrically) to close a short, sized at the fixed
order volume capped by the absolute net inventory. -/
def mkCloseTrade (cfg : GptMarketMakerConfig) (symbol : String)
    (netInv avgEntry bestBid bestAsk : ℚ) (t : Int) : Trade :=
  if netInv > 0 then
    let price := if cfg.use_limit_orders
                 then max bestBid (avgEntry * (1 + cfg.min_profit_bps / 10000))
                 else bestBid
    Trade.new t symbol "Sell" price (min cfg.fix_order_volume (abs netInv))
  else
    let price := if cfg.use_limit_orders
                 then min bestAsk (avgEntry * (1 - cfg.min_profit_bps / 10000))
                 else bestAsk
    Trade.new t symbol "Buy" price (min cfg.fix_order_volume (abs netInv))

/-- `GptMarketMaker::propose_trade` (gpt_market_maker.rs lines 280-410):
refuse on an empty book side; push the mid price into the volatility and
momentum windows; refuse while the VWAP window is not full; evaluate the
gate and the exit conditions; emit the closing order, or nothing while
the gate blocks, or an entry order on an imbalance/VWAP signal. -/
def GptMarketMaker.propose_trade (sqrtQ : ℚ → ℚ) (s : GptMarketMaker)
    (ob : OrderBook) : Option Trade × GptMarketMaker :=
  if ob.bids = [] ∨ ob.asks = [] then (none, s)
  else
    let best_bid := (ob.bids.headD (0, 0)).1
    let bid_vol := (ob.bids.headD (0, 0)).2
    let best_ask := (ob.asks.headD (0, 0)).1
    let ask_vol := (ob.asks.headD (0, 0)).2
    let mid_price := (best_bid + best_ask) / 2
    let t := ob.current_time
    let ph1 := s.price_history ++ [mid_price]
    let ph2 := if ph1.length > s.config.volatility_window then ph1.tail else ph1
    let mp1 := s.momentum_prices ++ [mid_price]
    let mp2 := if mp1.length > s.config.momentum_window then mp1.tail else mp1
    let s1 := { s with price_history := ph2, momentum_prices := mp2 }
    let vw := GptMarketMaker.update_vwap s1 mid_price (bid_vol + ask_vol)
    match vw.1 with
    | none => (none, vw.2)
    | some vwap =>
      let s2 := vw.2
      let cm := GptMarketMaker.check_market_conditions sqrtQ s2 t
      let can_trade := cm.1
      let s3 := cm.2
      let should_close := GptMarketMaker.should_close_position s3 mid_price t
      if should_close ∧ s3.net_inventory ≠ 0 then
        (some (mkCloseTrade s3.config s3.symbol s3.net_inventory
                 s3.avg_entry_price best_bid best_ask t), s3)
      else if can_trade = false then (none, s3)
      else
        let obi := GptMarketMaker.compute_obi ob
        let invR := abs s3.net_inventory / s3.config.max_inventory
        let thr := s3.config.obi_threshold * (1 + invR)
        if obi > thr ∧ mid_price < vwap ∧
           s3.net_inventory < s3.config.max_inventory * s3.config.inventory_reduction_threshold then
          let lp := if s3.config.use_limit_orders
                    then best_bid * (1 - s3.config.limit_order_spread_bps / 10000)
                    else best_ask
          (some (Trade.new t s3.symbol "Buy" lp s3.config.fix_order_volume), s3)
        else if obi < -thr ∧ mid_price > vwap ∧
                s3.net_inventory > -(s3.config.max_inventory * s3.config.inventory_reduction_threshold) then
          let lp := if s3.config.use_limit_orders
                    then best_ask * (1 + s3.config.limit_order_spread_bps / 10000)
                    else best_bid
          (some (Trade.new t s3.symbol "Sell" lp s3.config.fix_order_volume), s3)
        else (none, s3)

/-- A fixed test trade on one symbol with status "filled", as built by
the unit tests of src/pnl/tests.rs (`create_test_trade`). -/
def tradeOf (tm : Int) (side : String) (px qty : ℚ) : Trade :=
  { time := tm, symbol := "BTCUSDT", side := side, price := px,
    quantity := qty, status := "filled", id := "t" }

/-- The multi-lot input of spec.md §8: buy 1@100, buy 1@110, sell 2@120. -/
def c2trades : List Trade :=
  [tradeOf 1 "Buy" 100 1, tradeOf 2 "Buy" 110 1, tradeOf 3 "Sell" 120 2]

/-- Two buys left open, with the later one at a higher price: the input
whose spec-side unrealized pnl is nonzero. -/
def c6trades : List Trade :=
  [tradeOf 1 "Buy" 100 1, tradeOf 2 "Buy" 110 1]

/-- Two round trips with realized pnls 1 and 3, giving a per-step return
series of mean 2 and standard deviation 1. -/
def c7trades : List Trade :=
  [tradeOf 1 "Buy" 100 1, tradeOf 2 "Sell" 101 1,
   tradeOf 3 "Buy" 100 1, tradeOf 4 "Sell" 103 1]

/-- One open-close round trip of an alternating single-sided sequence:
an opening side, the open and close prices, and the shared quantity. -/
structure AltPair where
  isBuy : Bool
  openPx : ℚ
  closePx : ℚ
  qty : ℚ
deriving DecidableEq

/-- The side string of an opening fill. -/
def sideName (b : Bool) : String := if b then "Buy" else "Sell"

/-- The two filled trades of one round trip: a single opening fill
followed by a single fully matching closing fill of the same quantity on
the opposite side. -/
def mkPair (sym : String) (p : AltPair) : List Trade :=
  [{ time := 0, symbol := sym, side := sideName p.isBuy, price := p.openPx,
     quantity := p.qty, status := "filled", id := "o" },
   { time := 0, symbol := sym, side := sideName (!p.isBuy), price := p.closePx,
     quantity := p.qty, status := "filled", id := "c" }]

/-- A strictly alternating sequence of single-sided fills on one symbol:
one open, one matching close, repeated. -/
def mkAlt (sym : String) (pairs : List AltPair) : List Trade :=
  (pairs.map (mkPair sym)).flatten

/-- The signed realized pnl of one round trip. -/
def pairPnl (p : AltPair) : ℚ :=
  if p.isBuy then (p.closePx - p.openPx) * p.qty else (p.openPx - p.closePx) * p.qty

/-- A position-map entry holds no quantity: the entry is absent, or
present with quantity zero (as `process_position` leaves it after a full
close). -/
def posEmptyAt (o : Option PositionInfo) : Prop :=
  ∀ pos, o = some pos → pos.quantity = 0

/-- Follows the spec's words (spec.md §4.4): "unrealized pnl computed
separately against the last available trade price for any remaining open
quantity" — each remaining FIFO open lot of the symbol marked to the
price of the symbol's last trade. -/
def specUnrealizedPnl (trades : List Trade) (sym : String) : ℚ :=
  let lastPrice := ((trades.filter (fun t => t.symbol = sym)).map (·.price)).getLastD 0
  ((fifoRunState (fun _ => []) trades sym).map (fun lot =>
    if lot.side = "Buy" then (lastPrice - lot.price) * lot.quantity
    else (lot.price - lastPrice) * lot.quantity)).sum

/-- Follows the spec's words (spec.md §4.4): "remaining open quantity
reported signed (positive = net long)". -/
def specRemainingShares (trades : List Trade) (sym : String) : ℚ :=
  ((fifoRunState (fun _ => []) trades sym).map (fun lot =>
    if lot.side = "Buy" then lot.quantity else -lot.quantity)).sum

/-! ## Helper lemmas -/

@[simp] theorem mapUpdate_same {α : Type} (st : String → α) (k : String) (v : α) :
    mapUpdate st k v k = v := by
  simp [mapUpdate]

@[simp] theorem strLower_Buy : strLower "Buy" = "buy" := by decide

@[simp] theorem strLower_Sell : strLower "Sell" = "sell" := by decide

@[simp] theorem strLower_filled : strLower "filled" = "filled" := by decide

@[simp] theorem strLower_pending : strLower "pending" = "pending" := by decide

@[simp] theorem sumPnl_nil : sumPnl [] = 0 := rfl

@[simp] theorem sumPnl_cons (ct : ClosedTrade) (cts : List ClosedTrade) :
    sumPnl (ct :: cts) = ct.pnl + sumPnl cts := by
  simp [sumPnl]

/-! ## C2 and C3: the multi-lot example -/

/-- C2: on the input buy 1@100, buy 1@110, sell 2@120 (one symbol, all
filled), `FifoPnlProcessor.process_realized` returns total realized pnl
30 with exactly two closed trades, the first matching the oldest lot
(open price 100) for pnl 20 and the second matching the newer lot (open
price 110) for pnl 10. -/
theorem fifo_multi_lot_ordering :
    (FifoPnlProcessor.process_realized c2trades).total_pnl = 30 ∧
    (FifoPnlProcessor.process_realized c2trades).closed_trades =
      [{ open_side := "Buy", quantity := 1, open_price := 100,
         close_side := "Sell", close_price := 120, pnl := 20 },
       { open_side := "Buy", quantity := 1, open_price := 110,
         close_side := "Sell", close_price := 120, pnl := 10 }] := by
  constructor <;>
    norm_num +decide [FifoPnlProcessor.process_realized, c2trades, tradeOf,
      fifoRun, fifoStep, fifoMatch, sameSideAsFirst, mapUpdate, sumPnl]

/-- C3: on the same input, `PositionPnlProcessor.process_position` holds
average cost 105 after the two buys and returns total realized pnl
(120 - 105) * 2 = 30 with exactly one closed trade. -/
theorem position_averaging :
    ((posRunState (fun _ => none) [tradeOf 1 "Buy" 100 1, tradeOf 2 "Buy" 110 1])
        "BTCUSDT").map (·.avg_price) = some 105 ∧
    (PositionPnlProcessor.process_position c2trades).total_pnl = 30 ∧
    (PositionPnlProcessor.process_position c2trades).closed_trades =
      [{ open_side := "Buy", quantity := 2, open_price := 105,
         close_side := "Sell", close_price := 120, pnl := 30 }] := by
  refine ⟨?_, ?_, ?_⟩ <;>
    norm_num +decide [PositionPnlProcessor.process_position, c2trades, tradeOf,
      posRun, posRunState, posStep, posDefault, mapUpdate, sumPnl]

/-! ## C8: the status filter and the zero result -/

/-- C8: `PnlReport.calculate` processes only trades whose status
lowercases to "filled" (its result on any input equals its result on the
filled-only sublist), and when no filled trade exists it returns the
zero-valued result: total pnl 0, unrealized pnl 0, no closed trades,
total fees 0. -/
theorem calculate_filters_filled (trades : List Trade) (m : Method) :
    PnlReport.calculate trades m = PnlReport.calculate (trades.filter isFilled) m ∧
    (trades.filter isFilled = [] →
      PnlReport.calculate trades m =
        { total_pnl := 0, unrealized_pnl := 0, closed_trades := [], total_fees := 0 }) := by
  constructor
  · unfold PnlReport.calculate
    rw [List.filter_filter]
    simp
  · intro h
    unfold PnlReport.calculate
    simp [h]

/-- Witness for C8 at a concrete input whose only trade is still
"pending": the filter leaves nothing and the zero result is returned. -/
theorem calculate_filters_filled_witness :
    PnlReport.calculate [Trade.new 0 "BTCUSDT" "Buy" 100 1] Method.Fifo =
      PnlReport.calculate ([Trade.new 0 "BTCUSDT" "Buy" 100 1].filter isFilled) Method.Fifo ∧
    PnlReport.calculate [Trade.new 0 "BTCUSDT" "Buy" 100 1] Method.Fifo =
      { total_pnl := 0, unrealized_pnl := 0, closed_trades := [], total_fees := 0 } :=
  ⟨(calculate_filters_filled [Trade.new 0 "BTCUSDT" "Buy" 100 1] Method.Fifo).1,
   (calculate_filters_filled [Trade.new 0 "BTCUSDT" "Buy" 100 1] Method.Fifo).2 (by decide)⟩

/-! ## C6: unrealized pnl is never computed -/

/-- C6 fails on the code: `PnlReport.calculate` returns unrealized pnl 0
for every input and method (the processors hard-code the field to 0 and
calculator.rs line 70 admits skipping it), while the spec's formula at
the input buy 1@100, buy 1@110 (both open, last trade price 110) gives
unrealized pnl 10 on a remaining signed open quantity of +2.  The
`PnLResult` of src/core/models.rs carries no remaining-open-quantity
field at all. -/
theorem unrealized_pnl_always_zero :
    (∀ (trades : List Trade) (m : Method),
       (PnlReport.calculate trades m).unrealized_pnl = 0) ∧
    (PnlReport.calculate c6trades Method.Fifo).unrealized_pnl = 0 ∧
    specUnrealizedPnl c6trades "BTCUSDT" = 10 ∧
    specRemainingShares c6trades "BTCUSDT" = 2 := by
  refine ⟨?_, ?_, ?_, ?_⟩
  · intro trades m
    cases m <;> unfold PnlReport.calculate <;> split <;>
      simp only [FifoPnlProcessor.process_realized, PositionPnlProcessor.process_position] <;>
      split <;> rfl
  · norm_num +decide [PnlReport.calculate, isFilled, c6trades, tradeOf,
      FifoPnlProcessor.process_realized]
  · norm_num +decide [specUnrealizedPnl, c6trades, tradeOf, fifoRunState,
      fifoStep, fifoMatch, sameSideAsFirst, mapUpdate]
  · norm_num +decide [specRemainingShares, c6trades, tradeOf, fifoRunState,
      fifoStep, fifoMatch, sameSideAsFirst, mapUpdate]

/-! ## C5: the executor is seeded from entropy, not from a caller seed -/

/-- C5 fails on the code: `BacktestTradeEmitter::new` takes only the
configuration and draws its rng from `StdRng::from_entropy()`; there is
no seed parameter.  Two emitters constructed identically (equal configs,
fresh stats) whose entropy streams differ produce different statuses on
the same proposal, so identical construction does not give identical
outcome sequences. -/
theorem executor_entropy_not_seeded :
    (BacktestTradeEmitter.new BacktestConfig.dflt [1/2]).config =
      (BacktestTradeEmitter.new BacktestConfig.dflt [24/25]).config ∧
    ((BacktestTradeEmitter.new BacktestConfig.dflt [1/2]).execute_trade
        (some (tradeOf 0 "Buy" 100 1))).1.map (·.status) = some "filled" ∧
    ((BacktestTradeEmitter.new BacktestConfig.dflt [24/25]).execute_trade
        (some (tradeOf 0 "Buy" 100 1))).1.map (·.status) = some "unfilled" := by
  refine ⟨rfl, ?_, ?_⟩ <;>
    norm_num [BacktestTradeEmitter.new, BacktestTradeEmitter.execute_trade,
      BacktestConfig.dflt, ExecutionStats.dflt, tradeOf]

/-! ## C4: execute_trade outcome cases -/

/-- C4: on one proposal `execute_trade` uses a single uniform draw r.
Below the rejection rate the trade comes back rejected with its price
unchanged; otherwise below the fill rate it comes back filled with the
price multiplied by (1 + slippage_bps/10000) for a buy and divided by it
for a sell, with the trade, filled and cumulative-slippage statistics
updated; otherwise it comes back unfilled.  With rejection rate 0 and
fill rate 1 every draw in [0,1) fills. -/
theorem execute_trade_outcomes (cfg : BacktestConfig) (stats : ExecutionStats)
    (r : ℚ) (rs : List ℚ) (tr : Trade) :
    (r < cfg.rejection_rate →
      BacktestTradeEmitter.execute_trade ⟨cfg, r :: rs, stats⟩ (some tr) =
        (some { tr with status := "rejected" },
         ⟨cfg, rs,
          { stats with
            total_trades := stats.total_trades + 1
            rejected_trades := stats.rejected_trades + 1 }⟩)) ∧
    (¬ r < cfg.rejection_rate → r < cfg.fill_rate → tr.side = "Buy" →
      BacktestTradeEmitter.execute_trade ⟨cfg, r :: rs, stats⟩ (some tr) =
        (some { tr with
                status := "filled"
                price := tr.price * (1 + cfg.slippage_bps / 10000) },
         ⟨cfg, rs,
          { stats with
            total_trades := stats.total_trades + 1
            filled_trades := stats.filled_trades + 1
            total_slippage := stats.total_slippage +
              abs (tr.price * (1 + cfg.slippage_bps / 10000) - tr.price) }⟩)) ∧
    (¬ r < cfg.rejection_rate → r < cfg.fill_rate → tr.side = "Sell" →
      BacktestTradeEmitter.execute_trade ⟨cfg, r :: rs, stats⟩ (some tr) =
        (some { tr with
                status := "filled"
                price := tr.price / (1 + cfg.slippage_bps / 10000) },
         ⟨cfg, rs,
          { stats with
            total_trades := stats.total_trades + 1
            filled_trades := stats.filled_trades + 1
            total_slippage := stats.total_slippage +
              abs (tr.price / (1 + cfg.slippage_bps / 10000) - tr.price) }⟩)) ∧
    (¬ r < cfg.rejection_rate → ¬ r < cfg.fill_rate →
      BacktestTradeEmitter.execute_trade ⟨cfg, r :: rs, stats⟩ (some tr) =
        (some { tr with status := "unfilled" },
         ⟨cfg, rs, { stats with total_trades := stats.total_trades + 1 }⟩)) ∧
    (cfg.rejection_rate = 0 → cfg.fill_rate = 1 → 0 ≤ r → r < 1 →
      (BacktestTradeEmitter.execute_trade ⟨cfg, r :: rs, stats⟩ (some tr)).1.map
        (·.status) = some "filled") := by
  refine ⟨?_, ?_, ?_, ?_, ?_⟩
  · intro h1
    simp [BacktestTradeEmitter.execute_trade, h1]
  · intro h1 h2 hside
    simp [BacktestTradeEmitter.execute_trade, h1, h2, hside]
  · intro h1 h2 hside
    have hB : ¬ tr.side = "Buy" := by rw [hside]; decide
    simp [BacktestTradeEmitter.execute_trade, h1, h2, hB]
  · intro h1 h2
    simp [BacktestTradeEmitter.execute_trade, h1, h2]
  · intro hrej hfill h0 h1
    have hr1 : ¬ r < cfg.rejection_rate := by rw [hrej]; exact not_lt.mpr h0
    have hr2 : r < cfg.fill_rate := by rw [hfill]; exact h1
    by_cases hside : tr.side = "Buy" <;>
      simp [BacktestTradeEmitter.execute_trade, hr1, hr2, hside]

/-- Witness for C4: the default configuration, a draw of 1/2 (not
rejected at 2 percent, filled at 95 percent), and a buy at price 100;
each hypothesis of the applied conjuncts is discharged at this input. -/
theorem execute_trade_outcomes_witness :
    BacktestTradeEmitter.execute_trade
        ⟨BacktestConfig.dflt, [(1 : ℚ)/2], ExecutionStats.dflt⟩
        (some (tradeOf 0 "Buy" 100 1)) =
      (some { tradeOf 0 "Buy" 100 1 with
              status := "filled"
              price := 100 * (1 + (1/2 : ℚ) / 10000) },
       ⟨BacktestConfig.dflt, [],
        { ExecutionStats.dflt with
          total_trades := 1
          filled_trades := 1
          total_slippage := abs (100 * (1 + (1/2 : ℚ) / 10000) - 100) }⟩) := by
  have h := (execute_trade_outcomes BacktestConfig.dflt ExecutionStats.dflt
      (1/2) [] (tradeOf 0 "Buy" 100 1)).2.1
      (by norm_num [BacktestConfig.dflt]) (by norm_num [BacktestConfig.dflt]) rfl
  simpa [BacktestConfig.dflt, ExecutionStats.dflt, tradeOf] using h

/-! ## C7: the Sharpe value is not annualized -/

/-- C7 fails on the code: `calculate_metrics` divides
`mean_return * sqrt 252` by `std_dev * sqrt 252`, so the factor cancels
and the returned value is the raw mean-over-standard-deviation, not that
quotient scaled by the square root of 252.  On two closed trades of pnl
1 and 3 the return series is (1, 3) with mean 2 and standard deviation 1:
the code returns 2 for every value `s252` of f64 sqrt 252 (a number
strictly between 15 and 16), never the claimed 2 * s252. -/
theorem sharpe_not_annualized (sqrtQ : ℚ → ℚ) (s252 : ℚ)
    (h1 : sqrtQ 1 = 1) (h2 : 15 < s252) (h3 : s252 < 16) :
    (calculate_metrics sqrtQ s252 c7trades
       (PnlReport.calculate c7trades Method.Fifo)).2 = 2 ∧
    (calculate_metrics sqrtQ s252 c7trades
       (PnlReport.calculate c7trades Method.Fifo)).2 ≠ 2 * s252 := by
  have hs0 : (0 : ℚ) < s252 := by linarith
  have hres : PnlReport.calculate c7trades Method.Fifo =
      { total_pnl := 4, unrealized_pnl := 0,
        closed_trades :=
          [{ open_side := "Buy", quantity := 1, open_price := 100,
             close_side := "Sell", close_price := 101, pnl := 1 },
           { open_side := "Buy", quantity := 1, open_price := 100,
             close_side := "Sell", close_price := 103, pnl := 3 }],
        total_fees := 0 } := by
    norm_num +decide [PnlReport.calculate, isFilled, c7trades, tradeOf,
      FifoPnlProcessor.process_realized, fifoRun, fifoStep, fifoMatch,
      sameSideAsFirst, mapUpdate, sumPnl]
  have hrets : mkSharpeReturns [0, 1, 4] = [1, 3] := by
    norm_num [mkSharpeReturns, List.filterMap_cons]
  have hmain : (calculate_metrics sqrtQ s252 c7trades
      (PnlReport.calculate c7trades Method.Fifo)).2 = 2 := by
    rw [hres]
    norm_num +decide [calculate_metrics, c7trades, tradeOf, isFilled,
      cumulativePnl, partialSums, hrets, h1]
    rw [mul_div_assoc, div_self (ne_of_gt hs0), mul_one]
  refine ⟨hmain, ?_⟩
  rw [hmain]
  intro hc
  nlinarith

/-- Witness for C7: the identity function as the sqrt oracle (it maps 1
to 1) and 127/8 = 15.875 as the concrete value between 15 and 16. -/
theorem sharpe_not_annualized_witness :
    (calculate_metrics id ((127 : ℚ)/8) c7trades
       (PnlReport.calculate c7trades Method.Fifo)).2 = 2 ∧
    (calculate_metrics id ((127 : ℚ)/8) c7trades
       (PnlReport.calculate c7trades Method.Fifo)).2 ≠ 2 * ((127 : ℚ)/8) :=
  sharpe_not_annualized id ((127 : ℚ)/8) rfl (by norm_num) (by norm_num)

/-! ## C1: FIFO and position accounting agree on alternating round trips -/

/-- Processing one round trip (open then fully matching close) from a
state whose lot queue at the symbol is empty appends exactly one closed
trade of pnl `pairPnl p` and leaves the queue at the symbol empty
again. -/
theorem fifo_pair_run (sym : String) (p : AltPair) (ts : List Trade)
    (stF : String → List Trade) (h0 : stF sym = []) (hq : 0 < p.qty) :
    ∃ st2 ct, fifoRun stF (mkPair sym p ++ ts) = ct :: fifoRun st2 ts ∧
      st2 sym = [] ∧ ct.pnl = pairPnl p := by
  obtain ⟨b, op, cp, q⟩ := p
  have hq2 : (0 : ℚ) < q := hq
  cases b
  case false =>
    refine ⟨mapUpdate (mapUpdate stF sym
        [{ time := 0, symbol := sym, side := "Sell", price := op, quantity := q,
           status := "filled", id := "o" }]) sym [],
      { open_side := "Sell", quantity := q, open_price := op,
        close_side := "Buy", close_price := cp, pnl := (op - cp) * q },
      ?_, by simp [mapUpdate], by simp [pairPnl]⟩
    simp +decide [mkPair, sideName, fifoRun, fifoStep, fifoMatch,
      sameSideAsFirst, h0, hq2, min_self, sub_self, lt_self_iff_false]
  case true =>
    refine ⟨mapUpdate (mapUpdate stF sym
        [{ time := 0, symbol := sym, side := "Buy", price := op, quantity := q,
           status := "filled", id := "o" }]) sym [],
      { open_side := "Buy", quantity := q, open_price := op,
        close_side := "Sell", close_price := cp, pnl := (cp - op) * q },
      ?_, by simp [mapUpdate], by simp [pairPnl]⟩
    simp +decide [mkPair, sideName, fifoRun, fifoStep, fifoMatch,
      sameSideAsFirst, h0, hq2, min_self, sub_self, lt_self_iff_false]

/-- Processing one round trip from a state whose position entry at the
symbol holds no quantity realizes exactly one closed trade of pnl
`pairPnl p` and leaves the entry again at quantity zero. -/
theorem pos_pair_run (sym : String) (p : AltPair) (ts : List Trade)
    (stP : String → Option PositionInfo) (h0 : posEmptyAt (stP sym))
    (hq : 0 < p.qty) :
    ∃ st2 ct, posRun stP (mkPair sym p ++ ts) = ct :: posRun st2 ts ∧
      posEmptyAt (st2 sym) ∧ ct.pnl = pairPnl p := by
  obtain ⟨b, op, cp, q⟩ := p
  have hq2 : (0 : ℚ) < q := hq
  have hpq : ((stP sym).getD posDefault).quantity = 0 := by
    cases hsp : stP sym with
    | none => rfl
    | some pos0 => exact h0 pos0 hsp
  cases b
  case false =>
    refine ⟨mapUpdate (mapUpdate stP sym (some
        { quantity := -q, avg_price := op, total_cost := op * q,
          side := some "Sell",
          trades := ((stP sym).getD posDefault).trades ++
            [{ time := 0, symbol := sym, side := "Sell", price := op,
               quantity := q, status := "filled", id := "o" }] })) sym (some
        { quantity := 0, avg_price := 0, total_cost := 0,
          side := some "Sell", trades := [] }),
      { open_side := "Sell", quantity := q, open_price := op,
        close_side := "Buy", close_price := cp, pnl := (op - cp) * q },
      ?_, ?_, by simp [pairPnl]⟩
    · simp +decide [mkPair, sideName, posRun, posStep, hpq, hq2, hq2.ne',
        hq2.asymm, min_self, sub_self, lt_self_iff_false, abs_neg,
        abs_of_pos hq2, neg_add_cancel, neg_eq_zero, neg_pos, neg_lt_zero]
    · intro pos h
      rw [mapUpdate_same, Option.some.injEq] at h
      subst h
      rfl
  case true =>
    refine ⟨mapUpdate (mapUpdate stP sym (some
        { quantity := q, avg_price := op, total_cost := op * q,
          side := some "Buy",
          trades := ((stP sym).getD posDefault).trades ++
            [{ time := 0, symbol := sym, side := "Buy", price := op,
               quantity := q, status := "filled", id := "o" }] })) sym (some
        { quantity := 0, avg_price := 0, total_cost := 0,
          side := some "Buy", trades := [] }),
      { open_side := "Buy", quantity := q, open_price := op,
        close_side := "Sell", close_price := cp, pnl := (cp - op) * q },
      ?_, ?_, by simp [pairPnl]⟩
    · simp +decide [mkPair, sideName, posRun, posStep, hpq, hq2, hq2.ne',
        hq2.asymm, min_self, sub_self, lt_self_iff_false]
    · intro pos h
      rw [mapUpdate_same, Option.some.injEq] at h
      subst h
      rfl

/-- Both order loops, started at a symbol-empty state, produce the same
total pnl over a strictly alternating sequence of round trips. -/
theorem alt_run_total_eq (sym : String) (pairs : List AltPair) :
    (∀ p ∈ pairs, 0 < p.qty) →
    ∀ (stF : String → List Trade) (stP : String → Option PositionInfo),
      stF sym = [] → posEmptyAt (stP sym) →
      sumPnl (fifoRun stF (mkAlt sym pairs)) =
        sumPnl (posRun stP (mkAlt sym pairs)) := by
  induction pairs with
  | nil =>
    intro _ stF stP _ _
    simp [mkAlt, fifoRun, posRun]
  | cons p rest ih =>
    intro hq stF stP h1 h2
    have hqp : 0 < p.qty := hq p (by simp)
    have hqr : ∀ x ∈ rest, 0 < x.qty := fun x hx => hq x (by simp [hx])
    have hmk : mkAlt sym (p :: rest) = mkPair sym p ++ mkAlt sym rest := by
      simp [mkAlt]
    obtain ⟨stF2, ctF, hF, hF0, hFp⟩ :=
      fifo_pair_run sym p (mkAlt sym rest) stF h1 hqp
    obtain ⟨stP2, ctP, hP, hP0, hPp⟩ :=
      pos_pair_run sym p (mkAlt sym rest) stP h2 hqp
    rw [hmk, hF, hP, sumPnl_cons, sumPnl_cons, hFp, hPp,
        ih hqr stF2 stP2 hF0 hP0]

/-- C1: on every strictly alternating sequence of single-sided fills on
one symbol — one opening fill followed by one fully matching closing
fill of the same (positive) quantity, repeated — the FIFO processor and
the position-average processor return the same total realized pnl. -/
theorem fifo_position_agree_on_alternating (sym : String) (pairs : List AltPair)
    (hq : ∀ p ∈ pairs, 0 < p.qty) :
    (FifoPnlProcessor.process_realized (mkAlt sym pairs)).total_pnl =
      (PositionPnlProcessor.process_position (mkAlt sym pairs)).total_pnl := by
  have h := alt_run_total_eq sym pairs hq (fun _ => []) (fun _ => none) rfl
    (by intro pos hcontra; simp at hcontra)
  simpa [FifoPnlProcessor.process_realized,
    PositionPnlProcessor.process_position] using h

/-- Witness for C1: a long round trip of quantity 1 (open 100, close
110) followed by a short round trip of quantity 2 (open 50, close 40),
with both positivity hypotheses discharged. -/
theorem fifo_position_agree_on_alternating_witness :
    (FifoPnlProcessor.process_realized
       (mkAlt "BTCUSDT"
         [{ isBuy := true, openPx := 100, closePx := 110, qty := 1 },
          { isBuy := false, openPx := 50, closePx := 40, qty := 2 }])).total_pnl =
      (PositionPnlProcessor.process_position
        (mkAlt "BTCUSDT"
          [{ isBuy := true, openPx := 100, closePx := 110, qty := 1 },
           { isBuy := false, openPx := 50, closePx := 40, qty := 2 }])).total_pnl :=
  fifo_position_agree_on_alternating "BTCUSDT" _ (by
    intro p hp
    simp only [List.mem_cons, List.mem_singleton] at hp
    rcases hp with rfl | rfl | hp
    · norm_num
    · norm_num
    · simp at hp)

/-! ## C9 and C10: gate cooldown and VWAP warm-up -/

/-- Inside the volatility cooldown window `check_market_conditions`
refuses immediately and leaves the state unchanged
(gpt_market_maker.rs lines 187-190). -/
theorem check_cooldown (sqrtQ : ℚ → ℚ) (s : GptMarketMaker) (t : Int)
    (h : t - s.last_high_volatility_time < s.config.volatility_cooldown_ms) :
    GptMarketMaker.check_market_conditions sqrtQ s t = (false, s) := by
  simp [GptMarketMaker.check_market_conditions, h]

/-- While the VWAP window is not yet full after the push, `update_vwap`
returns no VWAP (gpt_market_maker.rs lines 113-124). -/
theorem update_vwap_warmup (s : GptMarketMaker) (pr v : ℚ)
    (h : s.volumes.length + 1 < s.config.vwap_window) :
    (GptMarketMaker.update_vwap s pr v).1 = none := by
  simp only [GptMarketMaker.update_vwap]
  by_cases hl : (s.prices ++ [pr * v]).length > s.config.vwap_window
  · rw [if_pos hl]
    dsimp only
    have ht : (s.volumes ++ [v]).tail.length < s.config.vwap_window := by
      simp only [List.length_tail, List.length_append, List.length_cons,
        List.length_nil]
      omega
    rw [if_pos ht]
  · rw [if_neg hl]
    dsimp only
    have ht : (s.volumes ++ [v]).length < s.config.vwap_window := by
      simp only [List.length_append, List.length_cons, List.length_nil]
      omega
    rw [if_pos ht]

/-- C10: `propose_trade` emits no proposal of any kind — no entry and no
exit — on any snapshot with an empty bid or ask side, and on any
snapshot processed while the VWAP window is still short of
`vwap_window` samples after the push. -/
theorem warmup_no_proposal :
    (∀ (sqrtQ : ℚ → ℚ) (s : GptMarketMaker) (ob : OrderBook),
        ob.bids = [] ∨ ob.asks = [] →
        (GptMarketMaker.propose_trade sqrtQ s ob).1 = none) ∧
    (∀ (sqrtQ : ℚ → ℚ) (s : GptMarketMaker) (ob : OrderBook),
        s.volumes.length + 1 < s.config.vwap_window →
        (GptMarketMaker.propose_trade sqrtQ s ob).1 = none) := by
  constructor
  · intro sqrtQ s ob h
    simp only [GptMarketMaker.propose_trade]
    rw [if_pos h]
  · intro sqrtQ s ob h
    by_cases hempty : ob.bids = [] ∨ ob.asks = []
    · simp only [GptMarketMaker.propose_trade]
      rw [if_pos hempty]
    · simp only [GptMarketMaker.propose_trade]
      rw [if_neg hempty]
      simp [update_vwap_warmup, h]

/-- `update_vwap` touches only the `prices` and `volumes` windows: every
other field of the returned state equals the input's
(gpt_market_maker.rs lines 113-134 write no other field). -/
@[simp] theorem update_vwap_last_high (s : GptMarketMaker) (pr v : ℚ) :
    (GptMarketMaker.update_vwap s pr v).2.last_high_volatility_time =
      s.last_high_volatility_time := by
  simp only [GptMarketMaker.update_vwap]
  repeat' split
  all_goals rfl

@[simp] theorem update_vwap_config (s : GptMarketMaker) (pr v : ℚ) :
    (GptMarketMaker.update_vwap s pr v).2.config = s.config := by
  simp only [GptMarketMaker.update_vwap]
  repeat' split
  all_goals rfl

@[simp] theorem update_vwap_net_inventory (s : GptMarketMaker) (pr v : ℚ) :
    (GptMarketMaker.update_vwap s pr v).2.net_inventory = s.net_inventory := by
  simp only [GptMarketMaker.update_vwap]
  repeat' split
  all_goals rfl

@[simp] theorem update_vwap_avg_entry (s : GptMarketMaker) (pr v : ℚ) :
    (GptMarketMaker.update_vwap s pr v).2.avg_entry_price = s.avg_entry_price := by
  simp only [GptMarketMaker.update_vwap]
  repeat' split
  all_goals rfl

@[simp] theorem update_vwap_symbol (s : GptMarketMaker) (pr v : ℚ) :
    (GptMarketMaker.update_vwap s pr v).2.symbol = s.symbol := by
  simp only [GptMarketMaker.update_vwap]
  repeat' split
  all_goals rfl


/-- C9: a volatility breach restarts the cooldown stamp, and on every
snapshot whose time t satisfies
t - last_high_volatility_time < volatility_cooldown_ms the strategy
emits no new opening proposal: the result is nothing, or it is the
closing order of the exit branch (and then net inventory is nonzero) —
never an entry, whatever the order-book imbalance and VWAP conditions. -/
theorem volatility_cooldown_suppresses_entries :
    (∀ (sqrtQ : ℚ → ℚ) (s : GptMarketMaker) (t : Int),
        ¬ t - s.last_high_volatility_time < s.config.volatility_cooldown_ms →
        ¬ t - s.last_strong_momentum_time < s.config.momentum_cooldown_ms →
        GptMarketMaker.calculate_volatility sqrtQ s >
          s.config.max_volatility_threshold →
        GptMarketMaker.check_market_conditions sqrtQ s t =
          (false, { s with last_high_volatility_time := t })) ∧
    (∀ (sqrtQ : ℚ → ℚ) (s : GptMarketMaker) (ob : OrderBook),
        ob.current_time - s.last_high_volatility_time <
          s.config.volatility_cooldown_ms →
        (GptMarketMaker.propose_trade sqrtQ s ob).1 = none ∨
        ((GptMarketMaker.propose_trade sqrtQ s ob).1 =
           some (mkCloseTrade s.config s.symbol s.net_inventory
                   s.avg_entry_price ((ob.bids.headD (0, 0)).1)
                   ((ob.asks.headD (0, 0)).1) ob.current_time) ∧
         s.net_inventory ≠ 0)) := by
  constructor
  · intro sqrtQ s t h1 h2 h3
    simp [GptMarketMaker.check_market_conditions, h1, h2, h3]
  · intro sqrtQ s ob h
    by_cases hempty : ob.bids = [] ∨ ob.asks = []
    · left
      simp only [GptMarketMaker.propose_trade]
      rw [if_pos hempty]
    · simp only [GptMarketMaker.propose_trade]
      rw [if_neg hempty]
      simp only [check_cooldown, h, update_vwap_last_high, update_vwap_config,
        update_vwap_net_inventory, update_vwap_avg_entry, update_vwap_symbol,
        if_true]
      split
      · exact Or.inl rfl
      · split_ifs <;>
          first
          | exact Or.inl rfl
          | (rename_i hC; exact Or.inr ⟨rfl, hC.2⟩)

/-- Witness for C9: a fresh strategy whose volatility window holds
(1, 2, 1) breaches the default threshold at time 100000 and stamps the
cooldown; a strategy stamped at time 100 receives a snapshot at time 200
(inside the 5000 ms cooldown) and emits nothing or only the closing
order. -/
theorem volatility_cooldown_suppresses_entries_witness :
    GptMarketMaker.check_market_conditions id
        { GptMarketMaker.new "BTCUSDT" GptMarketMakerConfig.dflt with
          price_history := [1, 2, 1] } 100000 =
      (false,
       { { GptMarketMaker.new "BTCUSDT" GptMarketMakerConfig.dflt with
           price_history := [1, 2, 1] } with
         last_high_volatility_time := 100000 }) ∧
    ((GptMarketMaker.propose_trade id
        { GptMarketMaker.new "BTCUSDT" GptMarketMakerConfig.dflt with
          last_high_volatility_time := 100 }
        { bids := [(99, 1)], asks := [(101, 1)], current_time := 200 }).1 = none ∨
     ((GptMarketMaker.propose_trade id
        { GptMarketMaker.new "BTCUSDT" GptMarketMakerConfig.dflt with
          last_high_volatility_time := 100 }
        { bids := [(99, 1)], asks := [(101, 1)], current_time := 200 }).1 =
          some (mkCloseTrade GptMarketMakerConfig.dflt "BTCUSDT" 0 0 99 101 200) ∧
      (0 : ℚ) ≠ 0)) :=
  ⟨volatility_cooldown_suppresses_entries.1 id _ 100000
      (by norm_num [GptMarketMaker.new, GptMarketMakerConfig.dflt])
      (by norm_num [GptMarketMaker.new, GptMarketMakerConfig.dflt])
      (by norm_num [GptMarketMaker.calculate_volatility, GptMarketMaker.new,
        GptMarketMakerConfig.dflt,
        show ([(1 : ℚ), -(1/2)] : List ℚ) ≠ [] from by simp]),
   volatility_cooldown_suppresses_entries.2 id _ _
      (by norm_num [GptMarketMaker.new, GptMarketMakerConfig.dflt])⟩

/-- Witness for C10: on an empty bid side the fresh strategy proposes
nothing, and on a full book it still proposes nothing because its empty
VWAP window (0 + 1 samples) is far short of the 100-sample default. -/
theorem warmup_no_proposal_witness :
    (GptMarketMaker.propose_trade id
        (GptMarketMaker.new "BTCUSDT" GptMarketMakerConfig.dflt)
        { bids := [], asks := [(101, 1)], current_time := 5 }).1 = none ∧
    (GptMarketMaker.propose_trade id
        (GptMarketMaker.new "BTCUSDT" GptMarketMakerConfig.dflt)
        { bids := [(99, 1)], asks := [(101, 1)], current_time := 5 }).1 = none :=
  ⟨warmup_no_proposal.1 id _ _ (Or.inl rfl),
   warmup_no_proposal.2 id _ _
      (by norm_num [GptMarketMaker.new, GptMarketMakerConfig.dflt])⟩
